import Mathlib

/-!
Shallow embedding of common/calibration_main.py from the Benchmarks
repository: the script that computes an empirical calibration for UQ
regression results (run, read_file, the dropout-rate filename parsing,
the uqmode dispatch, the binning calibration phase and its persistence).

External collaborators (pandas, the candle library, plotting, the file
system) are modelled as events: the embedded code records each call to a
collaborator together with the arguments the script passes; the values a
collaborator returns are supplied as explicit inputs (BinInputs).

Python name resolution matters for this module: the body of run refers to
the names set_seed (line 85) and path (line 110), and neither is bound at
module level, imported, or a builtin, so the references raise NameError.
The model makes the module-level environment explicit (moduleGlobals) and
run consults it exactly where the source does.
-/

/-- Python exceptions the embedded code can raise. -/
inductive PyExc where
  | nameError (n : String)
  | typeError (msg : String)
  | indexError
  | valueError (s : String)
  | exception (msg : String)
  deriving Repr, DecidableEq

/-- True for the exceptions the dropout-rate parse can raise (IndexError and
ValueError), false for every other exception. -/
def PyExc.isDataExc : PyExc → Bool
  | PyExc.indexError => true
  | PyExc.valueError _ => true
  | _ => false

/-- The interpolation object returned by
candle.compute_empirical_calibration_binning. It is opaque to this script
(built and consumed by the candle library), so it is modelled as a tagged
token that the script can only pass along and serialize. -/
structure Spline where
  tag : Nat
  deriving Repr, DecidableEq

/-- Python values the script passes to collaborators (argument lists). -/
inductive PyVal where
  | listQ (l : List Rat)
  | num (q : Rat)
  deriving Repr, DecidableEq

/-- Observable effects of the script: prints, directory creation, and each
call to an external collaborator with the arguments the script passes. -/
inductive Event where
  | print (msg : String)
  /-- print with the message Droput rate: followed by dp (line 105); the
  float rendering of dp is abstracted by carrying the value itself. -/
  | printRate (dp : Rat)
  /-- lines 91-92: os.makedirs of folder_out when it does not exist. -/
  | ensureDir (dir : String)
  /-- candle.compute_statistics_homoscedastic / heteroscedastic / quantile
  (lines 113, 116, 119), recorded with the uqmode that selected it. -/
  | extractCall (mode : String)
  /-- candle.plot_percentile_predictions (line 122). -/
  | plotPercentile
  /-- candle.plot_density_observed_vs_predicted (line 134). -/
  | plotDensity
  /-- candle.plot_2d_density_sigma_vs_error (line 135). -/
  | plot2dDensity
  /-- candle.plot_histogram_error_per_sigma (line 136). -/
  | plotHistogram
  /-- candle.split_data_for_empirical_calibration (line 139). -/
  | splitCall
  /-- candle.compute_empirical_calibration_binning (line 144), recorded with
  the bins and coverage_percentile arguments. -/
  | computeBinningCall (bins coverage : Nat)
  /-- candle.plot_calibration_and_errors_binning (lines 146-153), recorded
  with the plot_steps argument. -/
  | plotCalibrationBinning (plotSteps : Bool)
  /-- candle.apply_calibration_binning (line 159), recorded with the
  interpolant and the two sigma bounds passed to it. -/
  | applyCall (s : Spline) (minL maxL : Rat)
  /-- candle.overprediction_binning_check (line 166), recorded with the full
  positional argument list of the call. -/
  | checkCall (args : List PyVal)
  /-- dill.dump of the interpolant into fname (lines 170-172); dill is the
  serializer that supports arbitrary callable objects. -/
  | dillDump (fname : String) (s : Spline)
  /-- pickle.dump of the list with the two limits into fname (lines 175-176). -/
  | pickleDump (fname : String) (lo hi : Rat)
  deriving Repr, DecidableEq

/-- True exactly for statistics-extraction calls. -/
def Event.isExtract : Event → Bool
  | Event.extractCall _ => true
  | _ => false

/-- True exactly for the calibration-application call. -/
def Event.isApplyCall : Event → Bool
  | Event.applyCall _ _ _ => true
  | _ => false

/-- True exactly for the overprediction-check call. -/
def Event.isCheckCall : Event → Bool
  | Event.checkCall _ => true
  | _ => false

/-- True exactly for persistence effects (dill.dump and pickle.dump). -/
def Event.isPersist : Event → Bool
  | Event.dillDump _ _ => true
  | Event.pickleDump _ _ _ => true
  | _ => false

/-- The value of dp_perc after lines 94-106: na models the Python int -1
(line 98), rate q models the float dp * 100. (line 106) with the product
taken over exact rationals. -/
inductive DpPerc where
  | na
  | rate (q : Rat)
  deriving Repr, DecidableEq

/-- Python str of dp_perc as used on lines 107-108. str(-1) is "-1"; the
rendering of the float case is abstracted by the Rat repr, and no claim
depends on its exact text. -/
def dpStr : DpPerc → String
  | DpPerc.na => "-1"
  | DpPerc.rate q => toString q

/-- The parameters run consumes (finalized by the external candle config
handling; see additional_definitions and the standard rng_seed key). -/
structure Params where
  rng_seed : Nat
  uqmode : String
  calibration_mode : String
  plot_steps : Bool
  results_filename : String
  deriving Repr, DecidableEq

/-- Model of Python str.find: the least index at which pat occurs in s, or
none where the source gets -1. -/
def strFind (s pat : String) : Option Nat :=
  (List.range (s.length + 1)).find? (fun i => pat.data.isPrefixOf (s.data.drop i))

/-- Python single-index access s[i] for a nonnegative index: none models the
IndexError raised when i is past the end. -/
def charAt? (s : String) (i : Nat) : Option Char :=
  s.data.get? i

/-- Python slice s[a:b] for 0 <= a <= b: clamps at the end of the string and
never raises. -/
def strSlice (s : String) (a b : Nat) : String :=
  String.mk ((s.data.drop a).take (b - a))

/-- Numeric value of a digit list, most significant digit first. -/
def digitsVal (l : List Char) : Nat :=
  l.foldl (fun a c => 10 * a + (c.toNat - 48)) 0

/-- True when l is nonempty and consists of decimal digits. -/
def allDigits (l : List Char) : Bool :=
  !l.isEmpty && l.all Char.isDigit

/-- Unsigned decimal mantissa of a Python float literal: digits, or
digits.digits, or digits. or .digits (at least one digit overall). -/
def mantissa? (l : List Char) : Option Rat :=
  let ip := l.takeWhile Char.isDigit
  let rest := l.dropWhile Char.isDigit
  match rest with
  | [] => if ip.isEmpty then none else some ((digitsVal ip : Nat) : Rat)
  | '.' :: fp =>
    if fp.all Char.isDigit && !(ip.isEmpty && fp.isEmpty) then
      some ((digitsVal ip : Rat) + (digitsVal fp : Rat) / ((10 : Rat) ^ fp.length))
    else none
  | _ => none

/-- Model of the Python float builtin applied to a string: surrounding
spaces stripped, optional sign, decimal mantissa, optional e-exponent.
The value is kept as an exact rational; inf, nan and underscore separators
are not modelled (no claim depends on them). none models ValueError. -/
def pyFloat? (s : String) : Option Rat :=
  let t := ((s.data.dropWhile (· = ' ')).reverse.dropWhile (· = ' ')).reverse
  let signed : Rat × List Char :=
    match t with
    | '+' :: r => (1, r)
    | '-' :: r => (-1, r)
    | r => (1, r)
  let mant := signed.2.takeWhile (fun c => !(c = 'e' || c = 'E'))
  let erest := signed.2.dropWhile (fun c => !(c = 'e' || c = 'E'))
  match erest with
  | [] => (mantissa? mant).map (fun m => signed.1 * m)
  | _ :: etail =>
    let esigned : Int × List Char :=
      match etail with
      | '+' :: r => (1, r)
      | '-' :: r => (-1, r)
      | r => (1, r)
    if allDigits esigned.2 then
      (mantissa? mant).map
        (fun m => signed.1 * m * (10 : Rat) ^ (esigned.1 * (digitsVal esigned.2 : Int)))
    else none

/-- The slice of the filename passed to float on line 101 or line 103, given
the character c found at index index_dp + 6. -/
def dpSlice (filename : String) (index_dp : Nat) (c : Char) : String :=
  if c = '.' then strSlice filename (index_dp + 3) (index_dp + 3 + 3)
  else strSlice filename (index_dp + 3) (index_dp + 3 + 4)

/-- Lines 94-106 of run: locate the DR= token in the results filename and
parse the dropout rate. Returns the print events of the region together
with dp_perc, or the exception the region raises. -/
def dpParse (filename : String) : List Event × Except PyExc DpPerc :=
  match strFind filename "DR=" with
  | none =>
    ([Event.print "No dropout rate found in filename",
      Event.print "Using -1 to denote NA"], Except.ok DpPerc.na)
  | some index_dp =>
    match charAt? filename (index_dp + 6) with
    | none => ([], Except.error PyExc.indexError)
    | some c =>
      match pyFloat? (dpSlice filename index_dp c) with
      | none => ([], Except.error (PyExc.valueError (dpSlice filename index_dp c)))
      | some dp => ([Event.printRate dp], Except.ok (DpPerc.rate (dp * 100)))

/-- Line 90: folder_out. -/
def folder_out : String := "./outUQ/"

/-- Line 108: prefix = folder_out + uqmode + the DR= tag + str(dp_perc),
the run-identity string all output filenames are keyed by. -/
def pfxOf (uqmode : String) (dp_perc : DpPerc) : String :=
  folder_out ++ uqmode ++ "_DR=" ++ dpStr dp_perc

/-- Lines 112-125: the uqmode dispatch. For a supported mode it yields the
bins constant together with the collaborator calls of the branch; for any
other mode it raises the Exception built on lines 124-125. -/
def dispatch (uqmode : String) : Except PyExc (Nat × List Event) :=
  if uqmode = "hom" then Except.ok (60, [Event.extractCall "hom"])
  else if uqmode = "het" then Except.ok (31, [Event.extractCall "het"])
  else if uqmode = "qtl" then Except.ok (31, [Event.extractCall "qtl", Event.plotPercentile])
  else Except.error (PyExc.exception
    ("ERROR ! UQ mode specified " ++ "for calibration: " ++ uqmode ++ " not implemented... Exiting"))

/-- The bins constant a supported uqmode selects (none for an unsupported
mode, where dispatch raises instead). -/
def binsOf (uqmode : String) : Option Nat :=
  match dispatch uqmode with
  | Except.ok (b, _) => some b
  | Except.error _ => none

/-- The values the candle collaborators return to the bin-mode phase:
the 9-tuple of compute_empirical_calibration_binning (line 144), the
4-tuple of apply_calibration_binning (line 159), and the arrays from the
extraction and split steps that the phase reads (lines 139, 162-165). -/
structure BinInputs where
  pSigma_cal : List Rat
  mean_sigma : List Rat
  min_sigma : List Rat
  max_sigma : List Rat
  error_thresholds : List Rat
  err_err : List Rat
  error_thresholds_smooth : List Rat
  sigma_start_index : Nat
  sigma_end_index : Nat
  s_interpolate : Spline
  index_sigma_range_test : List Nat
  xp_test : List Rat
  yp_test : List Rat
  eabs_red : List Rat
  Ypred_std : List Rat
  index_perm_total : List Nat
  deriving Repr, DecidableEq

/-- numpy fancy indexing a[idx] for a nonnegative integer index array: none
models the IndexError raised when an index is out of bounds. -/
def numpyIndex (a : List Rat) (idx : List Nat) : Option (List Rat) :=
  idx.mapM a.get?

/-- Line 143: coverage_percentile. -/
def coverage_percentile : Nat := 95

/-- Lines 161-177 of run (after the apply call): the unused p_cov and
pYstd bindings, the overprediction check call, and the persistence of the
interpolant and the limits.
Line 161 binds p_cov = coverage_percentile but never uses it; in
particular p_cov is not among the arguments of the check call on line 166. -/
def binAfterApply (pfx : String) (pin : BinInputs) (minL maxL : Rat) :
    List Event × Option PyExc :=
  -- line 162: num_cal = pSigma_cal.shape[0]; line 163: Ypred_std[index_perm_total]
  match numpyIndex pin.Ypred_std pin.index_perm_total with
  | none => ([], some PyExc.indexError)
  | some pYstd_perm_all =>
    -- line 164: pYstd_test = pYstd_perm_all[num_cal:]
    -- line 165: pYstd_red = pYstd_test[index_sigma_range_test]
    match numpyIndex (pYstd_perm_all.drop pin.pSigma_cal.length) pin.index_sigma_range_test with
    | none => ([], some PyExc.indexError)
    | some _pYstd_red =>
      ([Event.checkCall [PyVal.listQ pin.yp_test, PyVal.listQ pin.eabs_red],
        Event.dillDump (pfx ++ "_calibration_binning_spline.dkl") pin.s_interpolate,
        Event.print ("Calibration spline (binning) stored in file:  "
          ++ (pfx ++ "_calibration_binning_spline.dkl")),
        Event.pickleDump (pfx ++ "_calibration_binning_limits.pkl") minL maxL,
        Event.print ("Calibration limits (binning) stored in file:  "
          ++ (pfx ++ "_calibration_binning_limits.pkl"))],
       none)

/-- Lines 143-177 of run: the bin-mode calibration phase. Records the
binning-computation call (bins, coverage_percentile) and the calibration
plot, derives minL_sigma_auto and maxL_sigma_auto by indexing mean_sigma
at the trust-region endpoints (lines 157-158, IndexError when out of
range), records the apply call with those bounds, and continues with
binAfterApply. -/
def binPhase (pfx : String) (plot_steps : Bool) (bins : Nat) (pin : BinInputs) :
    List Event × Option PyExc :=
  let tail : List Event × Option PyExc :=
    match pin.mean_sigma.get? pin.sigma_start_index with
    | none => ([], some PyExc.indexError)
    | some minL_sigma_auto =>
      match pin.mean_sigma.get? pin.sigma_end_index with
      | none => ([], some PyExc.indexError)
      | some maxL_sigma_auto =>
        let after := binAfterApply pfx pin minL_sigma_auto maxL_sigma_auto
        (Event.applyCall pin.s_interpolate minL_sigma_auto maxL_sigma_auto :: after.1, after.2)
  (Event.computeBinningCall bins coverage_percentile
    :: Event.plotCalibrationBinning plot_steps :: tail.1, tail.2)

/-- Lines 142-179 of run: bin mode runs the binning phase; any other mode
(inter) only prints the progress message of line 179 and falls through. -/
def calibPhase (calibration_mode pfx : String) (plot_steps : Bool) (bins : Nat)
    (pin : BinInputs) : List Event × Option PyExc :=
  if calibration_mode = "bin" then binPhase pfx plot_steps bins pin
  else ([Event.print "Calibration by smooth interpolation in progress"], none)

/-- Lines 112-179 of run: the uqmode dispatch, the three density plots
(lines 134-136), the split call (line 139) and the calibration phase.
This region is unreachable in the shipped module (run raises on line 85,
and its body would raise again on line 110); it is embedded here because
the spec describes it. -/
def pipelineFromDispatch (uqmode calibration_mode pfx : String) (plot_steps : Bool)
    (pin : BinInputs) : List Event × Option PyExc :=
  match dispatch uqmode with
  | Except.error e => ([], some e)
  | Except.ok (bins, evs) =>
    let cal := calibPhase calibration_mode pfx plot_steps bins pin
    (evs ++ [Event.plotDensity, Event.plot2dDensity, Event.plotHistogram]
      ++ Event.splitCall :: cal.1, cal.2)

/-- The names bound at module level in calibration_main.py: the future
imports, the imported modules, the module constants of lines 11-12 and
17-42, and the def and class statements. Neither set_seed nor path is
among them, and neither is a Python builtin. -/
def moduleGlobals : List String :=
  ["division", "print_function", "pd", "sys", "os", "pickle", "dill",
   "file_path", "lib_path", "candle", "additional_definitions", "required",
   "CalibrationApp", "initialize_parameters", "read_file", "run", "main"]

/-- Whether a bare name resolves in the module (module globals; the names
the body uses that are builtins do not appear in run before line 110). -/
def moduleBinds (n : String) : Bool :=
  moduleGlobals.contains n

/-- Lines 86-110 of run, executed only if the line 85 lookup of set_seed
had succeeded: bind the parameters, ensure folder_out exists, parse the
dropout rate, build method and prefix, then evaluate read_file(path,
filename) on line 110. The name path is not bound, so that line raises
NameError (and had path been bound, the call itself would raise TypeError,
because read_file takes a single argument). -/
def runBody (p : Params) : List Event × Option PyExc :=
  let uqmode := p.uqmode
  let _calibration_mode := p.calibration_mode
  let filename := p.results_filename
  let ev0 : List Event := [Event.ensureDir folder_out]
  let parsed := dpParse filename
  match parsed.2 with
  | Except.error e => (ev0 ++ parsed.1, some e)
  | Except.ok dp_perc =>
    let _method := "Dropout " ++ dpStr dp_perc ++ "%"
    let _pfx := pfxOf uqmode dp_perc
    if moduleBinds "path" then
      (ev0 ++ parsed.1,
       some (PyExc.typeError "read_file() takes 1 positional argument but 2 were given"))
    else
      (ev0 ++ parsed.1, some (PyExc.nameError "path"))

/-- run (lines 84-181). Its first statement set_seed(params['rng_seed'])
evaluates the name set_seed before anything else; the name is unbound, so
every call raises NameError there, before any event is produced. -/
def run (p : Params) : List Event × Option PyExc :=
  if moduleBinds "set_seed" then runBody p
  else ([], some (PyExc.nameError "set_seed"))

/-- A concrete set of collaborator outputs on which every step of the
bin-mode phase succeeds: three bins with the trust region spanning them,
two samples of which none is calibration (num_cal = 0) and one is retained
by the application step. -/
def pinOK : BinInputs where
  pSigma_cal := []
  mean_sigma := [5, 7, 9]
  min_sigma := []
  max_sigma := []
  error_thresholds := []
  err_err := []
  error_thresholds_smooth := []
  sigma_start_index := 0
  sigma_end_index := 2
  s_interpolate := ⟨0⟩
  index_sigma_range_test := [1]
  xp_test := []
  yp_test := [2]
  eabs_red := [1]
  Ypred_std := [3, 4]
  index_perm_total := [0, 1]

/-- The module environment does not bind the name path. -/
theorem moduleBinds_path : moduleBinds "path" = false := rfl

/-- The events of the dropout-rate parse are prints only, never a
statistics-extraction call. -/
theorem dpParse_no_extract (fn : String) :
    ((dpParse fn).1.all fun e => !e.isExtract) = true := by
  cases h : strFind fn "DR=" with
  | none => simp [dpParse, h, Event.isExtract]
  | some i =>
    cases h2 : charAt? fn (i + 6) with
    | none => simp [dpParse, h, h2]
    | some c =>
      cases h3 : pyFloat? (dpSlice fn i c) with
      | none => simp [dpParse, h, h2, h3]
      | some dp => simp [dpParse, h, h2, h3, Event.isExtract]

/-- C2: every call of run raises NameError on the unbound name set_seed,
before any statistics extraction and before any output event; and even the
rest of the body, were the first statement passed, would stop with an
exception before extraction, because read_file(path, filename) on line 110
refers to the unbound name path (and passes two arguments to the
one-argument read_file). Consequently no calibration artifact is ever
written for any input. -/
theorem run_always_raises_nameError_set_seed :
    (∀ p : Params, run p = ([], some (PyExc.nameError "set_seed")))
    ∧ moduleBinds "set_seed" = false
    ∧ moduleBinds "path" = false
    ∧ (∀ p : Params, (runBody p).2.isSome = true
        ∧ ((runBody p).1.all fun e => !e.isExtract) = true) := by
  refine ⟨fun p => rfl, rfl, rfl, fun p => ?_⟩
  have hev : (runBody p).1 = Event.ensureDir folder_out :: (dpParse p.results_filename).1
      ∧ (runBody p).2.isSome = true := by
    simp only [runBody]
    cases h : (dpParse p.results_filename).2 with
    | error e => exact ⟨rfl, rfl⟩
    | ok d => exact ⟨rfl, rfl⟩
  refine ⟨hev.2, ?_⟩
  rw [hev.1, List.all_cons, dpParse_no_extract p.results_filename]
  rfl

/-- C1: a concrete valid parameter set (supported uqmode, calibration_mode
bin, a results filename) on which run raises NameError at its very first
statement: no pipeline step (extraction, split, calibration, application,
check, persistence) is ever executed, so the pipeline does not run in
order and the failure is not at a data-validation step. -/
theorem run_raises_before_any_pipeline_step :
    run ⟨7102, "hom", "bin", false, "results.tsv"⟩
      = ([], some (PyExc.nameError "set_seed")) := rfl

/-- C3: for the unsupported uqmode abc, run raises NameError on set_seed
rather than an error naming the mode; the dispatch region itself (lines
112-125), when executed, raises the descriptive Exception naming the mode,
and the pipeline from the dispatch on then produces no event at all — in
particular no plot and no persisted artifact. -/
theorem unsupported_uqmode_error :
    run ⟨7102, "abc", "bin", false, "results.tsv"⟩
      = ([], some (PyExc.nameError "set_seed"))
    ∧ dispatch "abc" = Except.error (PyExc.exception
        "ERROR ! UQ mode specified for calibration: abc not implemented... Exiting")
    ∧ (∀ cm pfx ps pin, pipelineFromDispatch "abc" cm pfx ps pin
        = ([], some (PyExc.exception
            "ERROR ! UQ mode specified for calibration: abc not implemented... Exiting"))) :=
  ⟨rfl, rfl, fun _ _ _ _ => rfl⟩

/-- C4: with calibration_mode inter, run still raises NameError at
set_seed and prints nothing; the calibration phase itself (lines 142-179)
for a mode other than bin only prints the progress message of line 179,
makes no collaborator call, persists nothing and raises nothing. -/
theorem inter_mode_noop :
    run ⟨7102, "hom", "inter", false, "results.tsv"⟩
      = ([], some (PyExc.nameError "set_seed"))
    ∧ (∀ pfx ps bins pin, calibPhase "inter" pfx ps bins pin
        = ([Event.print "Calibration by smooth interpolation in progress"], none)) :=
  ⟨rfl, fun _ _ _ _ => rfl⟩

/-- C5: run never reaches the filename parse (NameError at set_seed); the
parse region itself (lines 94-106), on a filename without the DR= token,
logs the two messages and recovers with the -1 sentinel, the run-identity
prefix embeds the sentinel, and the body then continues past the parse —
stopping only at the separate line 110 NameError on path. -/
theorem missing_dr_token_sentinel :
    dpParse "results.tsv"
      = ([Event.print "No dropout rate found in filename",
          Event.print "Using -1 to denote NA"], Except.ok DpPerc.na)
    ∧ pfxOf "hom" DpPerc.na = "./outUQ/hom_DR=-1"
    ∧ runBody ⟨7102, "hom", "bin", false, "results.tsv"⟩
        = ([Event.ensureDir "./outUQ/",
            Event.print "No dropout rate found in filename",
            Event.print "Using -1 to denote NA"], some (PyExc.nameError "path"))
    ∧ run ⟨7102, "hom", "bin", false, "results.tsv"⟩
        = ([], some (PyExc.nameError "set_seed")) :=
  ⟨rfl, rfl, rfl, rfl⟩

/-- C6: the dispatch selects 60 bins for hom and 31 for het and qtl, the
bin-mode coverage percentile is 95, the binning-computation call always
passes exactly the (bins, coverage_percentile) pair it received, and in
bin mode the pipeline passes 60 (hom) or 31 (het, qtl) bins together with
coverage percentile 95 to the binning computation. -/
theorem bins_and_coverage_constants :
    binsOf "hom" = some 60 ∧ binsOf "het" = some 31 ∧ binsOf "qtl" = some 31
    ∧ coverage_percentile = 95
    ∧ (∀ pfx ps bins pin, (binPhase pfx ps bins pin).1.head?
        = some (Event.computeBinningCall bins coverage_percentile))
    ∧ (∀ pfx ps pin, Event.computeBinningCall 60 coverage_percentile
        ∈ (pipelineFromDispatch "hom" "bin" pfx ps pin).1)
    ∧ (∀ pfx ps pin, Event.computeBinningCall 31 coverage_percentile
        ∈ (pipelineFromDispatch "het" "bin" pfx ps pin).1)
    ∧ (∀ pfx ps pin, Event.computeBinningCall 31 coverage_percentile
        ∈ (pipelineFromDispatch "qtl" "bin" pfx ps pin).1) := by
  refine ⟨rfl, rfl, rfl, rfl, fun _ _ _ _ => rfl, ?_, ?_, ?_⟩ <;>
  · intro pfx ps pin
    simp [pipelineFromDispatch, dispatch, calibPhase, binPhase]

/-- The events after the apply call never contain an apply call. -/
theorem binAfterApply_no_applyCall (pfx : String) (pin : BinInputs) (a b : Rat) :
    ((binAfterApply pfx pin a b).1.filter Event.isApplyCall) = [] := by
  cases h1 : numpyIndex pin.Ypred_std pin.index_perm_total with
  | none => simp [binAfterApply, h1]
  | some l =>
    cases h2 : numpyIndex (l.drop pin.pSigma_cal.length) pin.index_sigma_range_test with
    | none => simp [binAfterApply, h1, h2]
    | some l2 => simp [binAfterApply, h1, h2, Event.isApplyCall]

/-- C7: whenever the trust-region indices are in range, bin mode derives
minL_sigma_auto = mean_sigma[sigma_start_index] and maxL_sigma_auto =
mean_sigma[sigma_end_index] and the unique calibration-application call
receives exactly these two values as its bounds. -/
theorem trust_region_bounds_passed_to_apply (pfx : String) (ps : Bool) (bins : Nat)
    (pin : BinInputs) (minL maxL : Rat)
    (h1 : pin.mean_sigma.get? pin.sigma_start_index = some minL)
    (h2 : pin.mean_sigma.get? pin.sigma_end_index = some maxL) :
    ((binPhase pfx ps bins pin).1.filter Event.isApplyCall)
      = [Event.applyCall pin.s_interpolate minL maxL] := by
  simp only [binPhase, h1, h2]
  simp [Event.isApplyCall, binAfterApply_no_applyCall]

/-- Witness for C7 at a concrete input. -/
theorem trust_region_bounds_passed_to_apply_witness :
    ((binPhase "./outUQ/hom_DR=-1" false 60 pinOK).1.filter Event.isApplyCall)
      = [Event.applyCall ⟨0⟩ 5 9] :=
  trust_region_bounds_passed_to_apply "./outUQ/hom_DR=-1" false 60 pinOK 5 9 rfl rfl

/-- C8: whenever every step of the bin phase succeeds, exactly two
artifacts are persisted — the interpolant via dill (the serializer
supporting arbitrary callable and spline objects) and the
[minL_sigma_auto, maxL_sigma_auto] pair via pickle — both under filenames
formed from the run-identity prefix (folder, uqmode, the DR= tag and the
parsed rate, whose absent-token sentinel renders as -1). -/
theorem two_artifacts_persisted (u : String) (dp : DpPerc) (ps : Bool) (bins : Nat)
    (pin : BinInputs) (minL maxL : Rat) (l l2 : List Rat)
    (h1 : pin.mean_sigma.get? pin.sigma_start_index = some minL)
    (h2 : pin.mean_sigma.get? pin.sigma_end_index = some maxL)
    (h3 : numpyIndex pin.Ypred_std pin.index_perm_total = some l)
    (h4 : numpyIndex (l.drop pin.pSigma_cal.length) pin.index_sigma_range_test = some l2) :
    ((binPhase (pfxOf u dp) ps bins pin).1.filter Event.isPersist)
      = [Event.dillDump (pfxOf u dp ++ "_calibration_binning_spline.dkl") pin.s_interpolate,
         Event.pickleDump (pfxOf u dp ++ "_calibration_binning_limits.pkl") minL maxL]
    ∧ (binPhase (pfxOf u dp) ps bins pin).2 = none
    ∧ dpStr DpPerc.na = "-1" := by
  refine ⟨?_, ?_, rfl⟩ <;>
    (simp only [binPhase, binAfterApply, h1, h2, h3, h4]; try simp [Event.isPersist])

/-- Witness for C8 at a concrete input. -/
theorem two_artifacts_persisted_witness :
    ((binPhase (pfxOf "hom" DpPerc.na) false 60 pinOK).1.filter Event.isPersist)
      = [Event.dillDump (pfxOf "hom" DpPerc.na ++ "_calibration_binning_spline.dkl")
           pinOK.s_interpolate,
         Event.pickleDump (pfxOf "hom" DpPerc.na ++ "_calibration_binning_limits.pkl") 5 9]
    ∧ (binPhase (pfxOf "hom" DpPerc.na) false 60 pinOK).2 = none
    ∧ dpStr DpPerc.na = "-1" :=
  two_artifacts_persisted "hom" DpPerc.na false 60 pinOK 5 9 [3, 4] [4] rfl rfl rfl rfl

/-- C9 counterexample: at a concrete successful bin-phase input, the unique
overprediction-check call receives exactly two arguments — the predicted
bounds and the actual absolute errors — and the nominal coverage
percentile is not among them, so the claimed three-argument invocation
does not happen. -/
theorem check_call_lacks_percentile_counterexample :
    ((binPhase (pfxOf "hom" DpPerc.na) false 60 pinOK).1.filter Event.isCheckCall)
      = [Event.checkCall [PyVal.listQ [2], PyVal.listQ [1]]]
    ∧ ([PyVal.listQ [2], PyVal.listQ [1]].contains (PyVal.num 95)) = false :=
  ⟨rfl, rfl⟩

/-- C9 amended: in bin mode the overprediction check is invoked with the
predicted error bounds and the actual absolute errors of the retained
test samples only — the nominal coverage percentile, though bound as
p_cov, is not passed — and the check is non-fatal: the interpolant and
the limits pair are persisted after it and the phase raises nothing. -/
theorem check_call_args_and_persistence (pfx : String) (ps : Bool) (bins : Nat)
    (pin : BinInputs) (minL maxL : Rat) (l l2 : List Rat)
    (h1 : pin.mean_sigma.get? pin.sigma_start_index = some minL)
    (h2 : pin.mean_sigma.get? pin.sigma_end_index = some maxL)
    (h3 : numpyIndex pin.Ypred_std pin.index_perm_total = some l)
    (h4 : numpyIndex (l.drop pin.pSigma_cal.length) pin.index_sigma_range_test = some l2) :
    ((binPhase pfx ps bins pin).1.filter Event.isCheckCall)
      = [Event.checkCall [PyVal.listQ pin.yp_test, PyVal.listQ pin.eabs_red]]
    ∧ ((binPhase pfx ps bins pin).1.filter Event.isPersist)
      = [Event.dillDump (pfx ++ "_calibration_binning_spline.dkl") pin.s_interpolate,
         Event.pickleDump (pfx ++ "_calibration_binning_limits.pkl") minL maxL]
    ∧ (binPhase pfx ps bins pin).2 = none := by
  refine ⟨?_, ?_, ?_⟩ <;>
    (simp only [binPhase, binAfterApply, h1, h2, h3, h4];
      try simp [Event.isCheckCall, Event.isPersist])

/-- Witness for the amended C9 at a concrete input. -/
theorem check_call_args_and_persistence_witness :
    ((binPhase "p" false 31 pinOK).1.filter Event.isCheckCall)
      = [Event.checkCall [PyVal.listQ pinOK.yp_test, PyVal.listQ pinOK.eabs_red]]
    ∧ ((binPhase "p" false 31 pinOK).1.filter Event.isPersist)
      = [Event.dillDump ("p" ++ "_calibration_binning_spline.dkl") pinOK.s_interpolate,
         Event.pickleDump ("p" ++ "_calibration_binning_limits.pkl") 5 9]
    ∧ (binPhase "p" false 31 pinOK).2 = none :=
  check_call_args_and_persistence "p" false 31 pinOK 5 9 [3, 4] [4] rfl rfl rfl rfl

/-- C10 counterexample: on a filename containing DR= followed by fewer
than four characters, run raises neither IndexError nor ValueError — it
raises NameError on set_seed before the parse region is ever reached. -/
theorem run_short_dr_token_counterexample :
    (run ⟨7102, "hom", "bin", false, "xDR=1"⟩).2 = some (PyExc.nameError "set_seed")
    ∧ ((run ⟨7102, "hom", "bin", false, "xDR=1"⟩).2.map PyExc.isDataExc) = some false :=
  ⟨rfl, rfl⟩

/-- C10 amended: the parse region of lines 99-106 is itself partial — with
the DR= token present at index i it raises IndexError when i + 6 is past
the end of the filename, raises ValueError when the selected three- or
four-character slice is not a parseable float, and recovers with the na
sentinel exactly when the token is absent — but in the shipped module run
raises NameError on set_seed first, so these latent errors are never
observed. -/
theorem dr_rate_parse_latent_errors :
    (∀ fn i, strFind fn "DR=" = some i → fn.length ≤ i + 6 →
      (dpParse fn).2 = Except.error PyExc.indexError)
    ∧ (∀ fn i c, strFind fn "DR=" = some i → charAt? fn (i + 6) = some c →
        pyFloat? (dpSlice fn i c) = none →
        (dpParse fn).2 = Except.error (PyExc.valueError (dpSlice fn i c)))
    ∧ (∀ fn, (dpParse fn).2 = Except.ok DpPerc.na ↔ strFind fn "DR=" = none) := by
  refine ⟨?_, ?_, ?_⟩
  · intro fn i hf hl
    have hc : charAt? fn (i + 6) = none := List.get?_eq_none.mpr hl
    simp [dpParse, hf, hc]
  · intro fn i c hf hc hv
    simp [dpParse, hf, hc, hv]
  · intro fn
    constructor
    · intro h
      cases hf : strFind fn "DR=" with
      | none => rfl
      | some i =>
        exfalso
        cases hc : charAt? fn (i + 6) with
        | none => simp [dpParse, hf, hc] at h
        | some c =>
          cases hv : pyFloat? (dpSlice fn i c) with
          | none => simp [dpParse, hf, hc, hv] at h
          | some dp => simp [dpParse, hf, hc, hv] at h
    · intro h
      simp [dpParse, h]

/-- Witness for the amended C10 at concrete filenames: a too-short DR=
tail (IndexError), an unparseable slice (ValueError), and an absent token
(sentinel recovery). -/
theorem dr_rate_parse_latent_errors_witness :
    (dpParse "xDR=1").2 = Except.error PyExc.indexError
    ∧ (dpParse "DR=abcdefg").2
        = Except.error (PyExc.valueError (dpSlice "DR=abcdefg" 0 'd'))
    ∧ (dpParse "results.tsv").2 = Except.ok DpPerc.na :=
  ⟨dr_rate_parse_latent_errors.1 "xDR=1" 1 (by decide) (by decide),
   dr_rate_parse_latent_errors.2.1 "DR=abcdefg" 0 'd' (by decide) (by decide) (by decide),
   (dr_rate_parse_latent_errors.2.2 "results.tsv").mpr (by decide)⟩
